import Mathlib

/-!
A shallow embedding of the MathsMate quiz application (`src/app.py`) in Lean 4,
together with theorems settling the specification claims about its grading,
question-selection, fallback and history behaviour.

Modelling conventions:
* Python strings are `String`; `str.strip()` is `pyStrip` (drop leading and
  trailing whitespace) and `s.split(')')[0]` is `py_split_first s ')'` (the
  text before the first `')'`, or all of `s` when it has none), both defined
  by structural recursion over the character list so that concrete instances
  evaluate inside the kernel.
* Python values that may be either an `int` or a `str` (the `correct_answer`
  field is the string `"A"`/`"A) 50"` for generated questions but the integer
  `0` in the fallback list) are modelled by the sum type `AnswerVal`; Python's
  `str(...)` coercion is `pyStr`.
* The form data `request.form` is a finite map modelled as an association list;
  `dict.get` is `lookup_answer`.
* Python exceptions that `submit_test` does not guard against (the
  `ZeroDivisionError` of `score / len(test_questions)` when a test has no
  questions) surface as `Except.error`.
* Float arithmetic on percentages is modelled over `ℚ`.
* `random.sample(pool, k)` is modelled by `randomSample`, a deterministic
  selection-without-replacement driven by an explicit stream of random draws
  (each draw is reduced modulo the number of remaining elements).  The code
  only calls it with `k ≤ pool.length`, where `random.sample` succeeds and
  returns `k` elements chosen at distinct positions.
-/

/-- A Python value stored in a question's `correct_answer` slot: the
application stores strings such as `"A"` for remotely generated questions, but
the hard-coded fallback list stores the integer index `0`. -/
inductive AnswerVal where
  | int (n : Int)
  | str (s : String)
deriving DecidableEq, Repr

/-- Python's `str(...)` applied to an `AnswerVal`. -/
def pyStr : AnswerVal → String
  | .int n => toString n
  | .str s => s

/-- Python's `s.strip()`: the string with leading and trailing whitespace
removed. -/
def pyStrip (s : String) : String :=
  ⟨((s.data.dropWhile Char.isWhitespace).reverse.dropWhile Char.isWhitespace).reverse⟩

/-- Python's `s.split(c)[0]`: the text before the first occurrence of `c`, or
all of `s` when it contains none. -/
def py_split_first (s : String) (c : Char) : String :=
  ⟨s.data.takeWhile (fun d => d ≠ c)⟩

/-- A row of the `question` table (`class Question` in `src/app.py`): the
fields used by grading and selection.  `options` holds the decoded JSON list
(the code stores `json.dumps(options)` and decodes it with `json.loads` before
every use, a round-trip that is the identity on lists of strings).  The usage
counters `times_used`/`last_used` are never read by the modelled routines and
are omitted. -/
structure Question where
  id : Nat
  question_text : String
  options : List String
  correct_answer : AnswerVal
  explanation : String
deriving DecidableEq, Repr

/-- `answers.get(question.id)` where `answers` is the dict built from the
submitted form fields `answer_<id>` (`src/app.py` lines 226-234, 246). -/
def lookup_answer (answers : List (Nat × String)) (qid : Nat) : Option String :=
  (answers.find? (fun p => p.fst == qid)).map Prod.snd

/-- `user_answer_str = str(user_answer).strip() if user_answer else None`
(`src/app.py` line 262): an absent answer, or the empty string (falsy in
Python), becomes `None`; otherwise the submitted text is trimmed. -/
def user_answer_str (user_answer : Option String) : Option String :=
  match user_answer with
  | none => none
  | some s => if s = "" then none else some (pyStrip s)

/-- `correct_answer_str = str(question.correct_answer).strip()`
(`src/app.py` line 263). -/
def correct_answer_str (q : Question) : String :=
  pyStrip (pyStr q.correct_answer)

/-- `correct_option_letter = correct_answer_str.split(')')[0].strip()`
(`src/app.py` line 269). -/
def correct_option_letter (q : Question) : String :=
  pyStrip (py_split_first (correct_answer_str q) ')')

/-- `option_letter_to_index = {'A': 0, 'B': 1, 'C': 2, 'D': 3}` together with
`dict.get` (`src/app.py` lines 273, 276). -/
def option_letter_to_index (s : String) : Option Nat :=
  if s = "A" then some 0
  else if s = "B" then some 1
  else if s = "C" then some 2
  else if s = "D" then some 3
  else none

/-- `correct_answer_index` (`src/app.py` line 276). -/
def correct_answer_index (q : Question) : Option Nat :=
  option_letter_to_index (correct_option_letter q)

/-- The loop `for i, option in enumerate(options): if str(option).strip() ==
user_answer_str: ...` (`src/app.py` lines 282-285): index of the first option
whose trimmed text equals the target. -/
def find_option_index (target : String) : List String → Nat → Option Nat
  | [], _ => none
  | o :: os, i =>
    if pyStrip o = target then some i else find_option_index target os (i + 1)

/-- `user_answer_index` (`src/app.py` lines 279-285): the search only runs when
`user_answer_str` is truthy (non-`None` and non-empty). -/
def user_answer_index (options : List String) (uas : Option String) : Option Nat :=
  match uas with
  | none => none
  | some s => if s = "" then none else find_option_index s options 0

/-- `correct = user_answer_index is not None and user_answer_index ==
correct_answer_index` (`src/app.py` line 299). -/
def is_correct_answer (uidx cidx : Option Nat) : Bool :=
  uidx.isSome && uidx == cidx

/-- One entry of the per-question `results` dict built by `submit_test`
(`src/app.py` lines 304-310). -/
structure QuestionResult where
  question : String
  user_answer : String
  correct_answer : AnswerVal
  is_correct : Bool
  explanation : String
deriving DecidableEq, Repr

/-- The body of the grading loop of `submit_test` for one question
(`src/app.py` lines 244-310): computes whether the submitted answer is
correct and the `results` entry recorded for the question. -/
def gradeQuestion (q : Question) (user_answer : Option String) : QuestionResult :=
  let options := q.options
  let uas := user_answer_str user_answer
  let cidx := correct_answer_index q
  let uidx := user_answer_index options uas
  { question := q.question_text
    user_answer := match uidx with
      | some i => options.getD i ""
      | none => "Not answered"
    correct_answer := q.correct_answer
    is_correct := is_correct_answer uidx cidx
    explanation := q.explanation }

/-- The score accumulated by the grading loop (`src/app.py` lines 239,
302-303): the number of test questions graded correct. -/
def submit_score (qs : List Question) (answers : List (Nat × String)) : Nat :=
  (qs.map (fun q => gradeQuestion q (lookup_answer answers q.id))).countP
    (fun r => r.is_correct)

/-- The `results` dict keyed by question id (`src/app.py` line 304). -/
def submit_results (qs : List Question) (answers : List (Nat × String)) :
    List (Nat × QuestionResult) :=
  qs.map (fun q => (q.id, gradeQuestion q (lookup_answer answers q.id)))

/-- The fields of the `Test` row that `submit_test` updates
(`src/app.py` lines 315-317). -/
structure TestRecord where
  score : Nat
  percentage : ℚ
  completed : Bool
deriving DecidableEq, Repr

/-- `submit_test` (`src/app.py` lines 239-337) after the form has been decoded:
grades every question of the test, then stores the score and the percentage
`(score / len(test_questions)) * 100`.  When the test has no questions the
division raises `ZeroDivisionError` (caught only by the blanket handler that
returns a 500 response), modelled as `Except.error`. -/
def submit_test (qs : List Question) (answers : List (Nat × String)) :
    Except String (TestRecord × List (Nat × QuestionResult)) :=
  let score := submit_score qs answers
  let results := submit_results qs answers
  if qs.length = 0 then
    Except.error "ZeroDivisionError: division by zero"
  else
    Except.ok
      ({ score := score
         percentage := (score : ℚ) / (qs.length : ℚ) * 100
         completed := true }, results)

/-- A question dict as passed around by `generate_questions` / `start_test`
(`src/app.py` lines 373-379, 412-417, 544-613): database questions carry their
row `id`, freshly generated ones do not. -/
structure QDict where
  id : Option Nat
  question : String
  options : List String
  correct_answer : AnswerVal
  explanation : String
deriving DecidableEq, Repr

/-- The dict built from a database `Question` row by the sampling branch of
`generate_questions` (`src/app.py` lines 373-379). -/
def question_to_dict (q : Question) : QDict :=
  { id := some q.id
    question := q.question_text
    options := q.options
    correct_answer := q.correct_answer
    explanation := q.explanation }

/-- `random.sample(pool, k)` (`src/app.py` line 372), modelled as
selection-without-replacement driven by a stream `rand` of random draws: each
step picks the element at position `rand.head % pool.length` of the remaining
pool and removes it.  For `k ≤ pool.length` this returns `k` elements chosen
at distinct positions, which is the contract of `random.sample` (the code only
calls it under that precondition; `random.sample` raises otherwise). -/
def randomSample {α : Type} : Nat → List α → List Nat → List α
  | 0, _, _ => []
  | k + 1, pool, rand =>
    if h : 0 < pool.length then
      let i := rand.headD 0 % pool.length
      pool.get ⟨i, Nat.mod_lt _ h⟩ :: randomSample k (pool.eraseIdx i) rand.tail
    else []

/-- A question object decoded from the remote model's generated JSON text.
Each of the four required fields is `none` when missing from the object
(`src/app.py` line 492 checks their presence). -/
structure RawQuestion where
  question : Option String
  options : Option (List String)
  correct_answer : Option String
  explanation : Option String
deriving DecidableEq, Repr

/-- The per-question validation of `generate_questions`
(`src/app.py` lines 491-505): all four fields present, exactly 4 options, and
`correct_answer` one of `A`/`B`/`C`/`D`. -/
def valid_generated_question (q : RawQuestion) : Bool :=
  q.question.isSome && q.options.isSome && q.correct_answer.isSome
    && q.explanation.isSome
    && (q.options.getD []).length == 4
    && (q.correct_answer.getD "" == "A" || q.correct_answer.getD "" == "B"
        || q.correct_answer.getD "" == "C" || q.correct_answer.getD "" == "D")

/-- A validated generated question as the dict returned by
`generate_questions` (it has no `id` key; `src/app.py` lines 510-520 insert it
into the database afterwards). -/
def raw_to_dict (q : RawQuestion) : QDict :=
  { id := none
    question := q.question.getD ""
    options := q.options.getD []
    correct_answer := .str (q.correct_answer.getD "")
    explanation := q.explanation.getD "" }

/-- The outcome of the three JSON-extraction strategies applied to the
generated text (`src/app.py` lines 461-484): a decode failure, a JSON value
that is not a list, or a JSON array of question objects. -/
inductive ContentParse where
  | decodeError
  | notList
  | jsonArray (qs : List RawQuestion)
deriving DecidableEq, Repr

/-- One element of the response's `choices` array; `message` is `none` when
the `message` key is missing (`src/app.py` line 452). -/
structure ApiChoice where
  message : Option ContentParse
deriving DecidableEq, Repr

/-- The JSON body of the HTTP response: `response.json()` may fail, the
`choices` key may be missing, or it holds a list of choices
(`src/app.py` lines 437-455). -/
inductive JsonBody where
  | invalid
  | noChoices
  | choices (cs : List ApiChoice)
deriving DecidableEq, Repr

/-- The outcome of the `requests.post` call to the remote generation API: an
exception, or an HTTP response with a status code and body
(`src/app.py` lines 425-429, 535). -/
inductive ApiOutcome where
  | exception
  | response (status : Nat) (body : JsonBody)
deriving DecidableEq, Repr

/-- `get_fallback_questions` (`src/app.py` lines 539-615): the static list of
10 hard-coded questions returned when API generation is unavailable or fails.
Note every entry carries an `id` and stores the integer `0` as its
`correct_answer`. -/
def get_fallback_questions : List QDict :=
  [{ id := some 1
     question := "Solve for x: 2(3x - 5) = 4x + 8"
     options := ["9", "7", "5", "3"]
     correct_answer := .int 0
     explanation := "To solve 2(3x - 5) = 4x + 8:\n1. Distribute: 6x - 10 = 4x + 8\n2. Subtract 4x: 2x - 10 = 8\n3. Add 10: 2x = 18\n4. Divide by 2: x = 9" },
   { id := some 2
     question := "What is the volume of a cylinder with radius 4 cm and height 10 cm? (Use π = 3.14)"
     options := ["502.4 cm³", "401.92 cm³", "314 cm³", "251.2 cm³"]
     correct_answer := .int 0
     explanation := "Volume of cylinder = πr²h\n= 3.14 × 4² × 10\n= 3.14 × 16 × 10\n= 502.4 cm³" },
   { id := some 3
     question := "A bag contains 5 red marbles, 3 blue marbles, and 2 green marbles. What is the probability of drawing a blue marble?"
     options := ["3/10", "1/3", "3/8", "1/2"]
     correct_answer := .int 0
     explanation := "Total marbles = 5 + 3 + 2 = 10\nBlue marbles = 3\nProbability = 3/10" },
   { id := some 4
     question := "If 3 pens cost $12, how much would 5 pens cost?"
     options := ["$20", "$18", "$15", "$24"]
     correct_answer := .int 0
     explanation := "Cost per pen = $12 ÷ 3 = $4\nCost for 5 pens = 5 × $4 = $20" },
   { id := some 5
     question := "A shirt originally priced at $40 is on sale for 25% off. What is the sale price?"
     options := ["$30", "$35", "$32", "$28"]
     correct_answer := .int 0
     explanation := "Discount = 25% of $40 = $10\nSale price = $40 - $10 = $30" },
   { id := some 6
     question := "In a right triangle, if one angle is 30°, what is the measure of the other acute angle?"
     options := ["60°", "45°", "90°", "30°"]
     correct_answer := .int 0
     explanation := "Sum of angles in a triangle = 180°\nRight angle = 90°\nOther acute angle = 180° - 90° - 30° = 60°" },
   { id := some 7
     question := "Simplify: (2x² + 3x - 5) + (x² - 4x + 2)"
     options := ["3x² - x - 3", "3x² + 7x - 3", "x² - x - 3", "3x² - x + 3"]
     correct_answer := .int 0
     explanation := "Combine like terms:\n(2x² + x²) + (3x - 4x) + (-5 + 2)\n= 3x² - x - 3" },
   { id := some 8
     question := "What is the area of a triangle with base 8 cm and height 6 cm?"
     options := ["24 cm²", "48 cm²", "32 cm²", "16 cm²"]
     correct_answer := .int 0
     explanation := "Area of triangle = (base × height) ÷ 2\n= (8 × 6) ÷ 2\n= 48 ÷ 2\n= 24 cm²" },
   { id := some 9
     question := "If a recipe calls for 2 cups of flour for 12 cookies, how many cups are needed for 30 cookies?"
     options := ["5 cups", "4 cups", "6 cups", "3 cups"]
     correct_answer := .int 0
     explanation := "Flour per cookie = 2 cups ÷ 12 = 1/6 cup\nFor 30 cookies = 30 × 1/6 = 5 cups" },
   { id := some 10
     question := "A bank offers 5% simple interest per year. If you deposit $1000, how much interest will you earn in 3 years?"
     options := ["$150", "$157.63", "$165", "$175"]
     correct_answer := .int 0
     explanation := "Simple Interest = Principal × Rate × Time\n= $1000 × 0.05 × 3\n= $150" }]

/-- `generate_questions` (`src/app.py` lines 366-537).  Inputs beyond the code's
own state: `rand` drives `random.sample`, `api_key` is the
`OPENROUTER_API_KEY` environment variable, and `api` is the outcome of the
`requests.post` call.  With at least 10 questions in the database it returns a
random sample of 10 of them; otherwise it calls the remote API and returns its
validated questions, falling back to `get_fallback_questions` on any failure
(no key, exception, non-200 status, malformed response structure, unparsable
generated text, wrong question count, or invalid questions). -/
def generate_questions (existing : List Question) (rand : List Nat)
    (api_key : Option String) (api : ApiOutcome) : List QDict :=
  if 10 ≤ existing.length then
    (randomSample 10 existing rand).map question_to_dict
  else
    match api_key with
    | none => get_fallback_questions
    | some _ =>
      match api with
      | .exception => get_fallback_questions
      | .response status body =>
        if status = 200 then
          match body with
          | .invalid => get_fallback_questions
          | .noChoices => get_fallback_questions
          | .choices [] => get_fallback_questions
          | .choices (c :: _) =>
            match c.message with
            | none => get_fallback_questions
            | some content =>
              match content with
              | .decodeError => get_fallback_questions
              | .notList => get_fallback_questions
              | .jsonArray qs =>
                if qs.length ≠ 10 then get_fallback_questions
                else if !(qs.all valid_generated_question) then get_fallback_questions
                else qs.map raw_to_dict
        else get_fallback_questions

/-- The fields of the `Test` row created by `start_test`
(`src/app.py` lines 116-122). -/
structure NewTest where
  score : Nat
  total_questions : Nat
  percentage : ℚ
  completed : Bool
deriving DecidableEq, Repr

/-- `start_test` (`src/app.py` lines 96-206) up to the creation of the `Test`
row: generates the questions and records `total_questions = len(questions)`. -/
def start_test (existing : List Question) (rand : List Nat)
    (api_key : Option String) (api : ApiOutcome) : NewTest × List QDict :=
  let questions := generate_questions existing rand api_key api
  ({ score := 0
     total_questions := questions.length
     percentage := 0
     completed := false }, questions)

/-- The summary dict that `submit_test` saves under `session['test_results']`
(`src/app.py` lines 328-335). -/
structure TestSummary where
  test_id : Nat
  score : Nat
  total_questions : Nat
  percentage : ℚ
  timestamp : String
  results : List (Nat × QuestionResult)
deriving DecidableEq, Repr

/-- `session['test_results'] = {...}` (`src/app.py` line 328): the session
holds at most one test-results entry, and a submission replaces it. -/
def store_test_results (_sess : Option TestSummary) (s : TestSummary) :
    Option TestSummary :=
  some s

/-- The test summaries stored in a session: the empty list, or the single
entry under the `test_results` key. -/
def history_entries : Option TestSummary → List TestSummary
  | none => []
  | some s => [s]

/-- The session state after a sequence of completed test submissions, each of
which runs the `session['test_results'] = {...}` assignment of `submit_test`. -/
def repeat_submissions (init : Option TestSummary) (subs : List TestSummary) :
    Option TestSummary :=
  subs.foldl store_test_results init

/-- Removal of the longest suffix of elements satisfying `q` (the list-level
form of stripping trailing whitespace). -/
def trimTail {α : Type} (q : α → Bool) (l : List α) : List α :=
  (l.reverse.dropWhile q).reverse

/-- The matching rule as the specification claim words it (spec-side
definition, for comparison with the grader embedded from the code): a
submitted answer matches when the stored correct-answer marker's letter (the
text before `')'`) maps through A→0, B→1, C→2, D→3 to the index of the option
whose whitespace-trimmed text equals the whitespace-trimmed submitted
value. -/
def spec_answer_matches (q : Question) (submitted : Option String) : Bool :=
  match submitted with
  | none => false
  | some v =>
    match option_letter_to_index (pyStrip (py_split_first (pyStr q.correct_answer) ')')),
        q.options.findIdx? (fun o => pyStrip o == pyStrip v) with
    | some ci, some ui => ui == ci
    | _, _ => false

/-- The failure conditions of the remote generation attempt enumerated by the
specification: missing API key, request exception, non-200 status, malformed
response structure (missing/empty `choices`, missing `message`), generated
text that cannot be parsed as a JSON array, or an array that is not 10
well-formed questions. -/
def api_generation_failed (api_key : Option String) (api : ApiOutcome) : Bool :=
  match api_key with
  | none => true
  | some _ =>
    match api with
    | .exception => true
    | .response status body =>
      if status = 200 then
        match body with
        | .invalid => true
        | .noChoices => true
        | .choices [] => true
        | .choices (c :: _) =>
          match c.message with
          | none => true
          | some .decodeError => true
          | some .notList => true
          | some (.jsonArray qs) =>
            decide (qs.length ≠ 10) || !(qs.all valid_generated_question)
      else true

/-- Claim C4 as stated: given the pool and the ID set used in the immediately
prior test, the selector prefers questions not in the prior set and backfills
from it only when fewer than 10 unused questions remain — so whenever at
least 10 unused questions are available, no selected question carries an id
from the prior set. -/
def selector_prefers_unused : Prop :=
  ∀ (pool : List Question) (rand : List Nat) (api_key : Option String)
    (api : ApiOutcome) (prior : List Nat),
    10 ≤ (pool.filter fun q => !(prior.contains q.id)).length →
    ∀ d ∈ generate_questions pool rand api_key api,
      ∀ i, d.id = some i → !(prior.contains i) = true

/-- A concrete single-question fixture used by the witness theorems. -/
def fixture_question : Question :=
  { id := 1, question_text := "1+1?", options := ["2", "3", "4", "5"],
    correct_answer := .str "A) 2", explanation := "e" }

/-- A pool of 11 distinct questions; the prior test used question 1, leaving
10 unused questions, yet the sampler can still pick question 1. -/
def cex_pool : List Question :=
  (List.range 11).map fun n =>
    { id := n + 1, question_text := "q", options := ["a", "b", "c", "d"],
      correct_answer := .str "A", explanation := "e" }

/-- The dict of the first question of `cex_pool`. -/
def cex_dict : QDict :=
  { id := some 1, question := "q", options := ["a", "b", "c", "d"],
    correct_answer := .str "A", explanation := "e" }

/-- A pool of exactly 10 distinct questions, for the sampling witness. -/
def sample_pool : List Question :=
  (List.range 10).map fun n =>
    { id := n + 1, question_text := "q", options := ["a", "b", "c", "d"],
      correct_answer := .str "A", explanation := "e" }

/-- The first fallback question as it would sit in the `question` table, its
`correct_answer` slot holding the integer `0`. -/
def fallback_question_row : Question :=
  { id := 1, question_text := "Solve for x: 2(3x - 5) = 4x + 8",
    options := ["9", "7", "5", "3"], correct_answer := .int 0,
    explanation := "To solve 2(3x - 5) = 4x + 8:\n1. Distribute: 6x - 10 = 4x + 8\n2. Subtract 4x: 2x - 10 = 8\n3. Add 10: 2x = 18\n4. Divide by 2: x = 9" }

/-- A degenerate but reachable fixture: its first option is whitespace-only.
Nothing in the program rules such questions out — the remote-generation
validation (`src/app.py` line 497) only checks that `options` is a list of
length 4, never the content of the option texts, and form values are
client-supplied. -/
def degenerate_question : Question :=
  { id := 1, question_text := "q", options := [" ", "b", "c", "d"],
    correct_answer := .str "A", explanation := "e" }

/-! ### General `takeWhile`/`dropWhile` lemmas

Used below to relate the two equivalent orders of stripping whitespace and
splitting at `')'` when extracting the correct-answer letter. -/

/-- `dropWhile` is idempotent. -/
theorem dropWhile_idem {α : Type} (p : α → Bool) (l : List α) :
    (l.dropWhile p).dropWhile p = l.dropWhile p := by
  induction l with
  | nil => rfl
  | cons a l ih =>
    by_cases h : p a = true
    · simp [List.dropWhile_cons, h, ih]
    · simp [List.dropWhile_cons, h]

/-- `takeWhile` passes over a prefix all of whose elements satisfy `p`. -/
theorem takeWhile_append_of_forall {α : Type} {p : α → Bool} {a : List α} (b : List α)
    (h : ∀ c ∈ a, p c = true) : (a ++ b).takeWhile p = a ++ b.takeWhile p := by
  induction a with
  | nil => simp
  | cons x xs ih =>
    simp [List.takeWhile_cons, h x (by simp), ih fun c hc => h c (by simp [hc])]

/-- `dropWhile` consumes a prefix all of whose elements satisfy `p`. -/
theorem dropWhile_append_of_forall {α : Type} {p : α → Bool} {a : List α} (b : List α)
    (h : ∀ c ∈ a, p c = true) : (a ++ b).dropWhile p = b.dropWhile p := by
  induction a with
  | nil => simp
  | cons x xs ih =>
    simp [List.dropWhile_cons, h x (by simp), ih fun c hc => h c (by simp [hc])]

/-- `takeWhile` stops exactly at the first element refuting `p`. -/
theorem takeWhile_append_stop {α : Type} {p : α → Bool} {a : List α} {d : α} (b : List α)
    (ha : ∀ c ∈ a, p c = true) (hd : p d = false) :
    (a ++ d :: b).takeWhile p = a := by
  rw [takeWhile_append_of_forall _ ha]
  simp [List.takeWhile_cons, hd]

/-- `dropWhile` never consumes past an element refuting `p`. -/
theorem dropWhile_append_stop {α : Type} {p : α → Bool} (a : List α) {d : α} (b : List α)
    (hd : p d = false) : ∃ s, (a ++ d :: b).dropWhile p = s ++ d :: b := by
  induction a with
  | nil => exact ⟨[], by simp [List.dropWhile_cons, hd]⟩
  | cons x xs ih =>
    by_cases h : p x = true
    · simpa [List.dropWhile_cons, h] using ih
    · exact ⟨x :: xs, by simp [List.dropWhile_cons, h]⟩

theorem trimTail_idem {α : Type} (q : α → Bool) (l : List α) :
    trimTail q (trimTail q l) = trimTail q l := by
  simp [trimTail, dropWhile_idem]

/-- A list is its trailing-trim followed by the trimmed-off suffix. -/
theorem trimTail_append_decomp {α : Type} (q : α → Bool) (l : List α) :
    l = trimTail q l ++ (l.reverse.takeWhile q).reverse := by
  unfold trimTail
  rw [← List.reverse_append, List.takeWhile_append_dropWhile, List.reverse_reverse]

theorem mem_trimTail {α : Type} {q : α → Bool} {l : List α} {x : α}
    (h : x ∈ trimTail q l) : x ∈ l := by
  unfold trimTail at h
  rw [List.mem_reverse] at h
  have hx := List.Sublist.mem h (List.dropWhile_sublist q)
  rwa [List.mem_reverse] at hx

/-- Leading-trim commutes past `takeWhile p` when everything trimmed
satisfies `p`. -/
theorem dropWhile_takeWhile_dropWhile {α : Type} {p q : α → Bool}
    (hpq : ∀ c, q c = true → p c = true) (l : List α) :
    (l.takeWhile p).dropWhile q = ((l.dropWhile q).takeWhile p).dropWhile q := by
  conv_lhs => rw [← List.takeWhile_append_dropWhile q l]
  rw [takeWhile_append_of_forall _ fun c hc => hpq c (List.mem_takeWhile_imp hc),
    dropWhile_append_of_forall _ fun c hc => List.mem_takeWhile_imp hc]

/-- Core of the letter-extraction bridge: on a list with no leading `q`-run,
trimming the trailing `q`-run before or after truncating at the first
non-`p` element gives the same result, provided `q` implies `p`. -/
theorem trimTail_core {α : Type} {p q : α → Bool} (hpq : ∀ c, q c = true → p c = true)
    (m : List α) (hm : m.dropWhile q = m) :
    trimTail q (((trimTail q m).takeWhile p).dropWhile q) =
    trimTail q ((m.takeWhile p).dropWhile q) := by
  cases hdp : m.dropWhile p with
  | cons d b =>
    have hne : m.dropWhile p ≠ [] := by simp [hdp]
    have hd := List.head_dropWhile_not p m hne
    simp only [hdp, List.head_cons] at hd
    have hqd : q d = false := by
      cases hq : q d
      · rfl
      · exact absurd (hpq d hq) (by simp [hd])
    have hdecomp : m = m.takeWhile p ++ d :: b := by
      conv_lhs => rw [← List.takeWhile_append_dropWhile p m]
      rw [hdp]
    have ht : ∀ c ∈ m.takeWhile p, p c = true := fun c hc => List.mem_takeWhile_imp hc
    have hrev : m.reverse = b.reverse ++ d :: (m.takeWhile p).reverse := by
      conv_lhs => rw [hdecomp]
      simp
    obtain ⟨s, hs⟩ := dropWhile_append_stop (p := q) b.reverse (m.takeWhile p).reverse hqd
    have htm : trimTail q m = m.takeWhile p ++ d :: s.reverse := by
      unfold trimTail
      rw [hrev, hs]
      simp
    rw [htm, takeWhile_append_stop _ ht hd]
  | nil =>
    have hall : ∀ c ∈ m, p c = true := List.dropWhile_eq_nil_iff.mp hdp
    have h1 : m.takeWhile p = m := List.takeWhile_eq_self_iff.mpr hall
    have h2 : (trimTail q m).takeWhile p = trimTail q m :=
      List.takeWhile_eq_self_iff.mpr fun c hc => hall c (mem_trimTail hc)
    rw [h1, h2, hm]
    cases htm : trimTail q m with
    | nil => simp [trimTail]
    | cons x xs =>
      have hdec := trimTail_append_decomp q m
      rw [htm] at hdec
      have hqx : q x = false := by
        cases hq : q x
        · rfl
        · exfalso
          rw [hdec, List.cons_append, List.dropWhile_cons, hq, if_pos rfl] at hm
          have hlen := List.Sublist.length_le
            (List.dropWhile_sublist (l := xs ++ (m.reverse.takeWhile q).reverse) q)
          rw [hm] at hlen
          simp at hlen
      rw [List.dropWhile_cons]
      simp only [hqx, Bool.false_eq_true, if_false]
      rw [← htm, trimTail_idem, htm]

/-- Trimming before or after truncating at the first non-`p` element agrees,
provided everything trimmable satisfies `p`. -/
theorem trimTail_takeWhile_comm {α : Type} {p q : α → Bool}
    (hpq : ∀ c, q c = true → p c = true) (l : List α) :
    trimTail q (((trimTail q (l.dropWhile q)).takeWhile p).dropWhile q) =
    trimTail q ((l.takeWhile p).dropWhile q) := by
  rw [dropWhile_takeWhile_dropWhile hpq l]
  exact trimTail_core hpq (l.dropWhile q) (dropWhile_idem q l)

/-- Stripping a string before taking the text in front of the first `')'` and
stripping again (as the code does) equals taking the text in front of the
first `')'` and stripping once (the natural reading of "the letter before the
close paren"). -/
theorem pyStrip_py_split_first_comm (s : String) :
    pyStrip (py_split_first (pyStrip s) ')') = pyStrip (py_split_first s ')') := by
  have hpq : ∀ c : Char, c.isWhitespace = true → (decide (c ≠ ')') = true) := by
    intro c hc
    simp only [decide_eq_true_eq]
    rintro rfl
    exact absurd hc (by decide)
  exact congrArg String.mk (trimTail_takeWhile_comm hpq s.data)

/-- The extracted correct-option letter is the whitespace-trimmed text before
the first `')'` of the stored marker. -/
theorem correct_option_letter_eq (q : Question) :
    correct_option_letter q = pyStrip (py_split_first (pyStr q.correct_answer) ')') :=
  pyStrip_py_split_first_comm (pyStr q.correct_answer)

/-- The grading loop's linear option search agrees with `List.findIdx?`. -/
theorem find_option_index_eq_findIdx (t : String) (os : List String) (n : Nat) :
    find_option_index t os n = os.findIdx? (fun o => pyStrip o == t) n := by
  induction os generalizing n with
  | nil => rfl
  | cons o os ih =>
    rw [find_option_index, List.findIdx?_cons]
    by_cases h : pyStrip o = t
    · simp [h]
    · simp [h, ih]

/-- When no option trims to the empty string, searching for the empty string
finds nothing. -/
theorem find_option_index_empty (os : List String) (n : Nat)
    (h : ∀ o ∈ os, pyStrip o ≠ "") : find_option_index "" os n = none := by
  induction os generalizing n with
  | nil => rfl
  | cons o os ih =>
    rw [find_option_index]
    simp only [h o (by simp), if_false]
    exact ih _ fun o ho => h o (by simp [ho])

/-- Per-question refinement: on questions none of whose options trim to the
empty string, the code's correctness bit equals the spec-side matching
rule. -/
theorem gradeQuestion_is_correct_eq_spec (q : Question) (ua : Option String)
    (hopt : ∀ o ∈ q.options, pyStrip o ≠ "") :
    (gradeQuestion q ua).is_correct = spec_answer_matches q ua := by
  have hnone : ∀ ci : Option Nat,
      (match ci, (none : Option Nat) with
        | some ci, some ui => ui == ci
        | _, _ => false) = false := by
    intro ci
    cases ci <;> rfl
  have hempty : q.options.findIdx? (fun o => pyStrip o == "") = none := by
    rw [← find_option_index_eq_findIdx]
    exact find_option_index_empty _ _ hopt
  cases ua with
  | none => rfl
  | some v =>
    show is_correct_answer
        (user_answer_index q.options (user_answer_str (some v)))
        (correct_answer_index q) = spec_answer_matches q (some v)
    rw [user_answer_str]
    by_cases hv : v = ""
    · subst hv
      simp only [if_pos rfl]
      rw [spec_answer_matches]
      rw [show pyStrip "" = "" from rfl, hempty, hnone]
      rfl
    · simp only [if_neg hv]
      rw [user_answer_index]
      by_cases hv2 : pyStrip v = ""
      · simp only [hv2, if_pos rfl]
        rw [spec_answer_matches, hv2, hempty, hnone]
        rfl
      · simp only [if_neg hv2]
        rw [spec_answer_matches, find_option_index_eq_findIdx,
          correct_answer_index, correct_option_letter_eq]
        cases q.options.findIdx? (fun o => pyStrip o == pyStrip v) with
        | none =>
          rw [hnone]
          simp [is_correct_answer]
        | some ui =>
          cases option_letter_to_index (pyStrip (py_split_first (pyStr q.correct_answer) ')')) with
          | none => simp [is_correct_answer]
          | some ci => simp [is_correct_answer]

/-- `random.sample` as modelled returns exactly `k` elements whenever the pool
is large enough. -/
theorem randomSample_length {α : Type} (k : Nat) (pool : List α) (rand : List Nat)
    (h : k ≤ pool.length) : (randomSample k pool rand).length = k := by
  induction k generalizing pool rand with
  | zero => rfl
  | succ k ih =>
    have hpos : 0 < pool.length := lt_of_lt_of_le (Nat.succ_pos k) h
    rw [randomSample, dif_pos hpos, List.length_cons, ih]
    rw [List.length_eraseIdx, if_pos (Nat.mod_lt _ hpos)]
    omega

/-- Every sampled element comes from the pool. -/
theorem randomSample_subset {α : Type} (k : Nat) (pool : List α) (rand : List Nat) :
    ∀ x ∈ randomSample k pool rand, x ∈ pool := by
  induction k generalizing pool rand with
  | zero => intro x hx; cases hx
  | succ k ih =>
    intro x hx
    by_cases hpos : 0 < pool.length
    · rw [randomSample, dif_pos hpos] at hx
      rcases List.mem_cons.mp hx with h | h
      · exact h ▸ pool.get_mem _ _
      · exact List.Sublist.mem (ih _ _ x h) (List.eraseIdx_sublist _ _)
    · rw [randomSample, dif_neg hpos] at hx
      cases hx

/-- Sampling never repeats an element of a duplicate-free pool. -/
theorem randomSample_nodup {α : Type} (k : Nat) (pool : List α) (rand : List Nat)
    (h : pool.Nodup) : (randomSample k pool rand).Nodup := by
  induction k generalizing pool rand with
  | zero => exact List.nodup_nil
  | succ k ih =>
    by_cases hpos : 0 < pool.length
    · rw [randomSample, dif_pos hpos]
      refine List.nodup_cons.mpr ⟨?_, ih _ _ (List.Sublist.nodup (List.eraseIdx_sublist _ _) h)⟩
      intro hmem
      have hx := randomSample_subset _ _ _ _ hmem
      rw [List.mem_eraseIdx_iff_getElem] at hx
      obtain ⟨j, hj, hne, hja⟩ := hx
      have hinj := List.nodup_iff_injective_getElem.mp h
      have : (⟨j, hj⟩ : Fin pool.length) =
          ⟨rand.headD 0 % pool.length, Nat.mod_lt _ hpos⟩ := by
        apply hinj
        simpa using hja
      exact hne (by simpa using congrArg Fin.val this)
    · rw [randomSample, dif_neg hpos]
      exact List.nodup_nil

/-- The count of correct entries in the recorded results equals the
accumulated score. -/
theorem submit_results_count_eq_score (qs : List Question)
    (answers : List (Nat × String)) :
    (submit_results qs answers).countP (fun p => p.2.is_correct) =
      submit_score qs answers := by
  unfold submit_results submit_score
  rw [List.countP_map, List.countP_map]
  rfl

/-- `generate_questions` returns exactly 10 questions on every branch. -/
theorem generate_questions_length (existing : List Question) (rand : List Nat)
    (api_key : Option String) (api : ApiOutcome) :
    (generate_questions existing rand api_key api).length = 10 := by
  unfold generate_questions
  by_cases hdb : 10 ≤ existing.length
  · rw [if_pos hdb, List.length_map]
    exact randomSample_length 10 existing rand hdb
  · rw [if_neg hdb]
    cases api_key with
    | none => rfl
    | some key =>
      cases api with
      | exception => rfl
      | response status body =>
        dsimp only
        by_cases hst : status = 200
        · rw [if_pos hst]
          cases body with
          | invalid => rfl
          | noChoices => rfl
          | choices cs =>
            cases cs with
            | nil => rfl
            | cons c rest =>
              obtain ⟨msg⟩ := c
              cases msg with
              | none => rfl
              | some content =>
                cases content with
                | decodeError => rfl
                | notList => rfl
                | jsonArray qs =>
                  dsimp only
                  by_cases h10 : qs.length = 10
                  · rw [if_neg (by simp [h10])]
                    by_cases hv : qs.all valid_generated_question
                    · rw [if_neg (by simp [hv]), List.length_map, h10]
                    · rw [if_pos (by simp [hv])]
                      rfl
                  · rw [if_pos (by simp [h10])]
                    rfl
        · rw [if_neg hst]
          rfl

/-- A marker whose letter position holds no A-D letter yields no correct
index; in particular the integer marker `0` of the fallback questions. -/
theorem correct_answer_index_int_zero (q : Question)
    (h : q.correct_answer = AnswerVal.int 0) : correct_answer_index q = none := by
  unfold correct_answer_index correct_option_letter correct_answer_str
  rw [h]
  rfl

/-- Without a correct-answer index nothing is ever graded correct. -/
theorem is_correct_answer_none (uidx : Option Nat) :
    is_correct_answer uidx none = false := by
  cases uidx <;> rfl

/-- C6: after any number of repeated test submissions, the stored history of
recent test summaries never contains more than 5 entries.  The session's
`test_results` slot is overwritten by each submission, so it holds at most one
summary, and in particular never more than 5. -/
theorem history_never_exceeds_five (init : Option TestSummary)
    (subs : List TestSummary) :
    (history_entries (repeat_submissions init subs)).length ≤ 5 := by
  induction subs generalizing init with
  | nil => cases init <;> simp [repeat_submissions, history_entries]
  | cons s ss ih =>
    rw [repeat_submissions, List.foldl_cons]
    exact ih _

/-- C7: the grader computes the percentage as `score / len(test_questions) *
100` with no guard against an empty question list, so a test with no
questions makes `submit_test` raise `ZeroDivisionError`. -/
theorem submit_test_empty_raises (answers : List (Nat × String)) :
    submit_test [] answers = Except.error "ZeroDivisionError: division by zero" :=
  rfl

/-- C9: every test created by `start_test` has a question set of size 10 —
each branch of `generate_questions` (database sampling, validated remote
generation, static fallback) yields exactly 10 questions — and the test's
`total_questions` field equals that count. -/
theorem start_test_always_ten_questions (existing : List Question)
    (rand : List Nat) (api_key : Option String) (api : ApiOutcome) :
    (start_test existing rand api_key api).1.total_questions = 10 ∧
    (start_test existing rand api_key api).2.length = 10 := by
  have h := generate_questions_length existing rand api_key api
  exact ⟨h, h⟩

/-- C5: if the remote question-generation call fails (no API key, exception,
non-200 status, malformed response structure, or generated text that is not a
JSON array of 10 well-formed questions), `generate_questions` returns the
static fallback question list unchanged. -/
theorem generate_questions_fallback (existing : List Question) (rand : List Nat)
    (api_key : Option String) (api : ApiOutcome)
    (hdb : existing.length < 10)
    (hfail : api_generation_failed api_key api = true) :
    generate_questions existing rand api_key api = get_fallback_questions := by
  unfold generate_questions
  rw [if_neg (by omega)]
  cases api_key with
  | none => rfl
  | some key =>
    cases api with
    | exception => rfl
    | response status body =>
      dsimp only
      unfold api_generation_failed at hfail
      dsimp only at hfail
      by_cases hst : status = 200
      · rw [if_pos hst]
        rw [if_pos hst] at hfail
        cases body with
        | invalid => rfl
        | noChoices => rfl
        | choices cs =>
          cases cs with
          | nil => rfl
          | cons c rest =>
            obtain ⟨msg⟩ := c
            cases msg with
            | none => rfl
            | some content =>
              cases content with
              | decodeError => rfl
              | notList => rfl
              | jsonArray qs =>
                dsimp only
                dsimp only at hfail
                by_cases h10 : qs.length = 10
                · rw [if_neg (by simp [h10])]
                  have hv : qs.all valid_generated_question = false := by
                    simp only [h10, ne_eq, not_true_eq_false] at hfail
                    simpa using hfail
                  rw [if_pos (by simp [hv])]
                · rw [if_pos (by simp [h10])]
      · rw [if_neg hst]

/-- C5 witness: with an empty database and an HTTP 500 response whose body is
not valid JSON, `generate_questions` returns the fallback list. -/
theorem generate_questions_fallback_witness :
    ([] : List Question).length < 10 ∧
    api_generation_failed (some "key") (ApiOutcome.response 500 .invalid) = true ∧
    generate_questions [] [] (some "key") (ApiOutcome.response 500 .invalid) =
      get_fallback_questions :=
  ⟨by decide, by decide,
    generate_questions_fallback [] [] (some "key")
      (ApiOutcome.response 500 .invalid) (by decide) (by decide)⟩

/-- C3: whenever the question pool in the database has at least 10 questions,
question selection returns a sample of exactly 10 distinct questions drawn
from that pool. -/
theorem selection_ten_distinct_from_pool (pool : List Question) (rand : List Nat)
    (api_key : Option String) (api : ApiOutcome)
    (hnd : pool.Nodup) (hlen : 10 ≤ pool.length) :
    generate_questions pool rand api_key api =
      (randomSample 10 pool rand).map question_to_dict ∧
    (randomSample 10 pool rand).length = 10 ∧
    (randomSample 10 pool rand).Nodup ∧
    ∀ x ∈ randomSample 10 pool rand, x ∈ pool := by
  refine ⟨?_, randomSample_length _ _ _ hlen, randomSample_nodup _ _ _ hnd,
    randomSample_subset _ _ _⟩
  unfold generate_questions
  rw [if_pos hlen]

/-- C3 witness: a concrete pool of exactly 10 distinct questions. -/
theorem selection_ten_distinct_from_pool_witness :
    sample_pool.Nodup ∧ 10 ≤ sample_pool.length ∧
    (generate_questions sample_pool [] none ApiOutcome.exception =
      (randomSample 10 sample_pool []).map question_to_dict ∧
    (randomSample 10 sample_pool []).length = 10 ∧
    (randomSample 10 sample_pool []).Nodup ∧
    ∀ x ∈ randomSample 10 sample_pool [], x ∈ sample_pool) :=
  ⟨by decide, by decide,
    selection_ten_distinct_from_pool sample_pool [] none ApiOutcome.exception
      (by decide) (by decide)⟩

/-- C4 counterexample: the selector does not prefer questions outside the
prior test's set — with 11 questions of which question 1 was used in the
prior test (so 10 unused ones remain), the sampler can still select
question 1. -/
theorem selector_ignores_prior_set : ¬ selector_prefers_unused := by
  intro h
  have hmem : cex_dict ∈ generate_questions cex_pool [] none ApiOutcome.exception := by
    decide
  have h10 : 10 ≤ (cex_pool.filter fun q => !(([1] : List Nat).contains q.id)).length := by
    decide
  have hc := h cex_pool [] none ApiOutcome.exception [1] h10 cex_dict hmem 1 (by decide)
  simp at hc

/-- C4 (amended): given a pool of at least `N = 10` available questions, the
selector produces a random sample of target size 10 drawn from the whole
pool; it does not consult the prior test's question set, so previously used
questions may be selected even when 10 unused questions remain. -/
theorem selector_samples_whole_pool (pool : List Question) (rand : List Nat)
    (api_key : Option String) (api : ApiOutcome) (hlen : 10 ≤ pool.length) :
    (generate_questions pool rand api_key api).length = 10 ∧
    ∀ d ∈ generate_questions pool rand api_key api,
      ∃ q ∈ pool, d = question_to_dict q := by
  refine ⟨generate_questions_length pool rand api_key api, ?_⟩
  intro d hd
  unfold generate_questions at hd
  rw [if_pos hlen] at hd
  obtain ⟨q, hq, rfl⟩ := List.mem_map.mp hd
  exact ⟨q, randomSample_subset _ _ _ q hq, rfl⟩

/-- C4 witness: the amended statement at the concrete 11-question pool. -/
theorem selector_samples_whole_pool_witness :
    10 ≤ cex_pool.length ∧
    ((generate_questions cex_pool [] none ApiOutcome.exception).length = 10 ∧
    ∀ d ∈ generate_questions cex_pool [] none ApiOutcome.exception,
      ∃ q ∈ cex_pool, d = question_to_dict q) :=
  ⟨by decide,
    selector_samples_whole_pool cex_pool [] none ApiOutcome.exception (by decide)⟩

/-- C8: a question with no submitted answer for its ID is marked incorrect,
its recorded user answer is the unanswered marker, and it contributes 0 to
the score. -/
theorem unanswered_marked_incorrect (q : Question) (qs : List Question)
    (answers : List (Nat × String)) (h : lookup_answer answers q.id = none) :
    (gradeQuestion q (lookup_answer answers q.id)).is_correct = false ∧
    (gradeQuestion q (lookup_answer answers q.id)).user_answer = "Not answered" ∧
    submit_score (q :: qs) answers = submit_score qs answers := by
  rw [h]
  refine ⟨?_, rfl, ?_⟩
  · cases correct_answer_index q <;> rfl
  · unfold submit_score
    rw [List.map_cons, List.countP_cons, h]
    simp [show (gradeQuestion q none).is_correct = false from by
      cases correct_answer_index q <;> rfl]

/-- C8 witness: with no answers submitted, the fixture question is graded
incorrect with the unanswered marker and contributes nothing. -/
theorem unanswered_marked_incorrect_witness :
    lookup_answer [] fixture_question.id = none ∧
    ((gradeQuestion fixture_question (lookup_answer [] fixture_question.id)).is_correct
        = false ∧
    (gradeQuestion fixture_question (lookup_answer [] fixture_question.id)).user_answer
        = "Not answered" ∧
    submit_score [fixture_question] [] = submit_score [] []) :=
  ⟨rfl, unanswered_marked_incorrect fixture_question [] [] rfl⟩

/-- C10: the fallback questions all store the integer `0` as their correct
answer, and grading any submission against questions whose stored correct
answer is `0` marks every answer incorrect and yields score 0, because the
letter extraction on the string form of `0` maps to no index in the A-D
table. -/
theorem fallback_rows_always_graded_incorrect (qs : List Question)
    (answers : List (Nat × String))
    (h : ∀ q ∈ qs, q.correct_answer = AnswerVal.int 0) :
    (∀ d ∈ get_fallback_questions, d.correct_answer = AnswerVal.int 0) ∧
    (∀ p ∈ submit_results qs answers, p.2.is_correct = false) ∧
    submit_score qs answers = 0 := by
  have hfalse : ∀ q ∈ qs, ∀ ua, (gradeQuestion q ua).is_correct = false := by
    intro q hq ua
    show is_correct_answer _ (correct_answer_index q) = false
    rw [correct_answer_index_int_zero q (h q hq)]
    exact is_correct_answer_none _
  refine ⟨by decide, ?_, ?_⟩
  · intro p hp
    unfold submit_results at hp
    obtain ⟨q, hq, rfl⟩ := List.mem_map.mp hp
    exact hfalse q hq _
  · unfold submit_score
    rw [List.countP_eq_zero]
    intro r hr
    obtain ⟨q, hq, rfl⟩ := List.mem_map.mp hr
    simp [hfalse q hq]

/-- C10 witness: submitting the mathematically correct answer `9` to the
first fallback question still scores 0. -/
theorem fallback_rows_always_graded_incorrect_witness :
    (∀ q ∈ [fallback_question_row], q.correct_answer = AnswerVal.int 0) ∧
    ((∀ d ∈ get_fallback_questions, d.correct_answer = AnswerVal.int 0) ∧
    (∀ p ∈ submit_results [fallback_question_row] [(1, "9")], p.2.is_correct = false) ∧
    submit_score [fallback_question_row] [(1, "9")] = 0) :=
  ⟨by decide,
    fallback_rows_always_graded_incorrect [fallback_question_row] [(1, "9")]
      (by decide)⟩

/-- C1 counterexample to the claim as stated: on a completed one-question
submission whose question has a whitespace-only first option and correct
marker `A`, the submitted value `" "` matches under the claim's rule (its
trimmed text equals the trimmed text of option 0, and the letter `A` maps to
index 0), so the claimed count is 1 — yet the code strips the truthy answer
to the empty string, skips the option search (`if user_answer_str:` is
false), and stores score 0. -/
theorem submitted_score_mismatches_spec_on_empty_trim_option :
    (submit_test [degenerate_question] [(1, " ")]).isOk = true ∧
    submit_score [degenerate_question] [(1, " ")] = 0 ∧
    [degenerate_question].countP
      (fun q => spec_answer_matches q (lookup_answer [(1, " ")] q.id)) = 1 ∧
    (gradeQuestion degenerate_question (some " ")).is_correct = false ∧
    spec_answer_matches degenerate_question (some " ") = true :=
  ⟨by decide, by decide, by decide, by decide, by decide⟩

/-- C1 (amended): for every completed test submission over questions none of
whose options have whitespace-only text, the stored score equals the number
of test questions whose submitted answer matches the stored correct answer,
the match being decided by mapping the stored marker's letter (the text
before `')'`) through A→0, B→1, C→2, D→3 and comparing it with the index of
the option whose whitespace-trimmed text equals the whitespace-trimmed
submitted value.  The proviso is forced by the counterexample above: on an
option trimming to the empty string the code skips the option search for a
whitespace-only submission and grades it incorrect even when the stated rule
matches. -/
theorem submitted_score_counts_spec_matches (qs : List Question)
    (answers : List (Nat × String)) (hlen : 0 < qs.length)
    (hopt : ∀ q ∈ qs, ∀ o ∈ q.options, pyStrip o ≠ "") :
    ∃ rec res, submit_test qs answers = Except.ok (rec, res) ∧
      rec.score =
        qs.countP fun q => spec_answer_matches q (lookup_answer answers q.id) := by
  refine ⟨{ score := submit_score qs answers,
            percentage := (submit_score qs answers : ℚ) / (qs.length : ℚ) * 100,
            completed := true }, submit_results qs answers, ?_, ?_⟩
  · unfold submit_test
    rw [if_neg (by omega)]
  · dsimp only
    unfold submit_score
    rw [List.countP_map]
    exact List.countP_congr fun q hq => by
      simp [Function.comp, gradeQuestion_is_correct_eq_spec q _ (hopt q hq)]

/-- C1 witness: a one-question test whose submitted option text matches the
marker `A) 2`. -/
theorem submitted_score_counts_spec_matches_witness :
    0 < [fixture_question].length ∧
    (∀ q ∈ [fixture_question], ∀ o ∈ q.options, pyStrip o ≠ "") ∧
    (∃ rec res, submit_test [fixture_question] [(1, "2")] = Except.ok (rec, res) ∧
      rec.score = [fixture_question].countP
        fun q => spec_answer_matches q (lookup_answer [(1, "2")] q.id)) :=
  ⟨by decide, by decide,
    submitted_score_counts_spec_matches [fixture_question] [(1, "2")]
      (by decide) (by decide)⟩

/-- C2: for every completed test submission the stored percentage is
recomputed as (number of correct answers / number of questions in the test)
× 100. -/
theorem stored_percentage_recomputed (qs : List Question)
    (answers : List (Nat × String)) (hlen : 0 < qs.length) :
    ∃ rec res, submit_test qs answers = Except.ok (rec, res) ∧
      rec.percentage =
        ((res.countP fun p => p.2.is_correct : Nat) : ℚ) / (qs.length : ℚ) * 100 := by
  refine ⟨{ score := submit_score qs answers,
            percentage := (submit_score qs answers : ℚ) / (qs.length : ℚ) * 100,
            completed := true }, submit_results qs answers, ?_, ?_⟩
  · unfold submit_test
    rw [if_neg (by omega)]
  · dsimp only
    rw [submit_results_count_eq_score]

/-- C2 witness: the concrete one-question submission stores percentage
`1 / 1 × 100`. -/
theorem stored_percentage_recomputed_witness :
    0 < [fixture_question].length ∧
    (∃ rec res, submit_test [fixture_question] [(1, "2")] = Except.ok (rec, res) ∧
      rec.percentage =
        ((res.countP fun p => p.2.is_correct : Nat) : ℚ) /
          (([fixture_question] : List Question).length : ℚ) * 100) :=
  ⟨by decide,
    stored_percentage_recomputed [fixture_question] [(1, "2")] (by decide)⟩
